import Mathlib

/-!
# A shallow embedding of `vmachine.py` (fduxiao/C-in-python)

This file embeds the virtual machine of `src/vmachine.py` in Lean 4 and
verifies the specification's claims about it.

Modelling conventions:
* Python strings (operand descriptors) are `List Char`; the helpers
  (`parseNat`, `splitOnChar`, ...) mirror the exact `int()` / `split` /
  `startswith` operations the source uses on them.
* Python integers are `Int`; Python floats are modelled by `ℚ` (every float
  literal or quotient appearing in this development is exactly representable,
  and no claim depends on IEEE-754 rounding).
* A Python `list` is a Lean `List`, with Python's indexing semantics
  (negative indices count from the end; out-of-range raises `IndexError`)
  captured by `pyGet` / `pySet`.
* The `@instruction` decorator of the source wraps each method so that
  *calling* the method only builds `lambda: func(self, *args)` and returns it
  without running `func`.  A constructed-but-not-yet-run instruction, i.e.
  such a lambda, is the value `Val.closure i`.  Crucially, the source's
  `sub`, `bit_and` and `ret` bodies call *decorated* siblings
  (`self.cmp(...)`, `self.bit_test(...)`, `self.pop(None)`, `self.jmp(...)`),
  so those inner calls yield unexecuted closures; the embedding reproduces
  this faithfully.
* Raising an exception leaves `self` in whatever state it had reached, so an
  executing instruction returns `PResult`, which carries the machine state in
  both its `ok` and its `err` constructor.
-/

/-- Convert a string literal to the `List Char` representation used for
Python strings throughout this file. -/
def str (s : String) : List Char := s.data

/-- The numeric value of a decimal digit character, `none` otherwise. -/
def digitVal (c : Char) : Option Nat :=
  if '0' ≤ c ∧ c ≤ '9' then some (c.toNat - '0'.toNat) else none

/-- Accumulating helper for `parseNat`. -/
def parseNatAux : List Char → Nat → Option Nat
  | [], acc => some acc
  | c :: cs, acc =>
    match digitVal c with
    | some d => parseNatAux cs (acc * 10 + d)
    | none => none

/-- Parse a non-empty all-digit string as a natural number (the digit-string
fragment of Python's `int()`). -/
def parseNat (s : List Char) : Option Nat :=
  match s with
  | [] => none
  | _ => parseNatAux s 0

/-- Python's `int(s)` on the strings this VM feeds it: an optional leading
`-` followed by decimal digits; anything else raises `ValueError` (`none`). -/
def parseInt (s : List Char) : Option Int :=
  match s with
  | '-' :: rest => (parseNat rest).map fun n => -(n : Int)
  | _ => (parseNat s).map fun n => (n : Int)

/-- Python's `s.split(sep)` for a single-character separator. -/
def splitOnChar (sep : Char) (s : List Char) : List (List Char) :=
  match s with
  | [] => [[]]
  | c :: cs =>
    let rest := splitOnChar sep cs
    if c = sep then [] :: rest
    else match rest with
      | r :: rs => (c :: r) :: rs
      | [] => [[c]]

/-- Python's `float(s)` restricted to plain decimal literals with a point,
which is the only shape `read_address` ever sends to this branch (`'.' in
target`); the value is represented exactly as a rational. -/
def parsePyFloat (s : List Char) : Option ℚ :=
  let sgn : ℚ := if s.head? = some '-' then -1 else 1
  let body : List Char := if s.head? = some '-' then s.drop 1 else s
  match splitOnChar '.' body with
  | [a, b] =>
    match parseNat a, parseNat b with
    | some ip, some fp => some (sgn * ((ip : ℚ) + (fp : ℚ) / ((10 : ℚ) ^ b.length)))
    | _, _ => none
  | _ => none

/-- Fuelled binary-digit recursion implementing bitwise combination of two
naturals; with fuel `a + b + 1` it computes the true bitwise combination.
(The kernel-opaque `Nat.bitwise` is avoided so that concrete witnesses can
be checked by `decide`.) -/
def natBitwise (f : Bool → Bool → Bool) : Nat → Nat → Nat → Nat
  | 0, _, _ => 0
  | fuel + 1, a, b =>
    if a = 0 ∧ b = 0 then 0
    else 2 * natBitwise f fuel (a / 2) (b / 2)
      + (if f (a % 2 = 1) (b % 2 = 1) then 1 else 0)

def pyNatAnd (a b : Nat) : Nat := natBitwise (fun x y => x && y) (a + b + 1) a b
def pyNatOr (a b : Nat) : Nat := natBitwise (fun x y => x || y) (a + b + 1) a b
def pyNatXor (a b : Nat) : Nat := natBitwise (fun x y => x != y) (a + b + 1) a b
/-- `a AND (NOT b)` on naturals, the auxiliary of two's-complement `&`/`|`. -/
def pyNatDiff (a b : Nat) : Nat := natBitwise (fun x y => x && !y) (a + b + 1) a b

/-- Python's `&` on arbitrary-precision integers (infinite two's complement),
by sign decomposition: `Int.negSucc m` is the complement of `m`. -/
def pyIntAnd : Int → Int → Int
  | .ofNat m, .ofNat n => .ofNat (pyNatAnd m n)
  | .ofNat m, .negSucc n => .ofNat (pyNatDiff m n)
  | .negSucc m, .ofNat n => .ofNat (pyNatDiff n m)
  | .negSucc m, .negSucc n => .negSucc (pyNatOr m n)

/-- Python's `|` on arbitrary-precision integers. -/
def pyIntOr : Int → Int → Int
  | .ofNat m, .ofNat n => .ofNat (pyNatOr m n)
  | .ofNat m, .negSucc n => .negSucc (pyNatDiff n m)
  | .negSucc m, .ofNat n => .negSucc (pyNatDiff m n)
  | .negSucc m, .negSucc n => .negSucc (pyNatAnd m n)

/-- Python's `^` on arbitrary-precision integers. -/
def pyIntXor : Int → Int → Int
  | .ofNat m, .ofNat n => .ofNat (pyNatXor m n)
  | .ofNat m, .negSucc n => .negSucc (pyNatXor m n)
  | .negSucc m, .ofNat n => .negSucc (pyNatXor m n)
  | .negSucc m, .negSucc n => .ofNat (pyNatXor m n)

/-- The instruction catalogue of `VirtualMachine`: one constructor per
`@instruction`-decorated method, carrying its operand strings.  A value of
this type is the data captured by `lambda: func(self, *args)` — the pending
call that `instruction_constructor` returns. -/
inductive Instr where
  | move (destination source : List Char)
  | lea (destination var : List Char)
  | push (target : List Char)
  | pop (writable : Option (List Char))
  | input (writable : List Char)
  | output (readable : List Char)
  | add (x y : List Char)
  | cmp (x y : List Char)
  | sub (x y : List Char)
  | mul (x y : List Char)
  | div (x y : List Char)
  | fdiv (x y : List Char)
  | bit_not (x : List Char)
  | bit_test (x y : List Char)
  | bit_and (x y : List Char)
  | bit_or (x y : List Char)
  | bit_xor (x y : List Char)
  | jmp (address : List Char)
  | je (address : List Char)
  | jne (address : List Char)
  | jb (address : List Char)
  | jnb (address : List Char)
  | jbe (address : List Char)
  | ja (address : List Char)
  | jna (address : List Char)
  | jae (address : List Char)
  | ret
deriving DecidableEq

/-- A Python value as stored in memory cells, registers, or returned by an
instruction body. -/
inductive Val where
  /-- a Python `int` -/
  | int (n : Int)
  /-- a Python `float` (exact rational model) -/
  | float (q : ℚ)
  /-- a `lambda: func(self, *args)` built by the `instruction` decorator —
  either appended into the code segment, or produced by an inner call to a
  decorated method and used as a value -/
  | closure (i : Instr)
  /-- the `lambda: unavailable(TypeError, 'Empty')` sentinel that fills the
  code segment at construction -/
  | empty
  /-- Python `None` -/
  | none
deriving DecidableEq

/-- The Python exceptions this module can raise. -/
inductive Err where
  | typeError (msg : List Char)
  | valueError
  | indexError
  | memoryError (msg : List Char)
  | zeroDivisionError
deriving DecidableEq

/-- The state of `VirtualMachine`: its memory, segment bases, registers,
flags and streams.  Registers hold arbitrary values (`setattr` stores
whatever `write_address` was given — including closures). -/
structure VirtualMachine where
  memory : List Val
  CS : Int
  DS : Int
  SS : Int
  SP : Val
  BP : Val
  IP : Val
  AX : Val
  BX : Val
  CX : Val
  DX : Val
  ZERO : Int
  NEG : Int
  input_stream : List Nat
  output_stream : List Nat
deriving DecidableEq

/-- `VirtualMachine.__init__`: code segment of `Empty` sentinels, then data
and stack segments of zeros; `SP` one past the stack end, `BP` the last
stack cell, `IP = CS = 0`. -/
def VirtualMachine.new (memory_size : Nat) (input_stream : List Nat) : VirtualMachine :=
  let memory := List.replicate memory_size Val.empty
  let DS := memory.length
  let memory := memory ++ List.replicate memory_size (Val.int 0)
  let SS := memory.length
  let memory := memory ++ List.replicate memory_size (Val.int 0)
  { memory := memory
    CS := 0
    DS := DS
    SS := SS
    SP := .int memory.length
    BP := .int ((memory.length : Int) - 1)
    IP := .int 0
    AX := .int 0
    BX := .int 0
    CX := .int 0
    DX := .int 0
    ZERO := 0
    NEG := 0
    input_stream := input_stream
    output_stream := [] }

/-- The register-name list the resolver recognises, in source order. -/
def registers : List (List Char) :=
  [str "AX", str "BX", str "CX", str "DX", str "SP", str "BP"]

/-- `getattr(self, r)` for a name drawn from `registers`. -/
def VirtualMachine.getattr (vm : VirtualMachine) (r : List Char) : Val :=
  if r = str "AX" then vm.AX
  else if r = str "BX" then vm.BX
  else if r = str "CX" then vm.CX
  else if r = str "DX" then vm.DX
  else if r = str "SP" then vm.SP
  else if r = str "BP" then vm.BP
  else Val.none  -- unreachable: only called with a name found in `registers`

/-- `setattr(self, r, v)` for a name drawn from `registers`. -/
def VirtualMachine.setattr (vm : VirtualMachine) (r : List Char) (v : Val) : VirtualMachine :=
  if r = str "AX" then { vm with AX := v }
  else if r = str "BX" then { vm with BX := v }
  else if r = str "CX" then { vm with CX := v }
  else if r = str "DX" then { vm with DX := v }
  else if r = str "SP" then { vm with SP := v }
  else if r = str "BP" then { vm with BP := v }
  else vm  -- unreachable: only called with a name found in `registers`

/-- Python `+` on the values that can occur here (`int`/`float` arithmetic;
anything else raises `TypeError`). -/
def valAdd : Val → Val → Except Err Val
  | .int a, .int b => .ok (.int (a + b))
  | .int a, .float b => .ok (.float ((a : ℚ) + b))
  | .float a, .int b => .ok (.float (a + (b : ℚ)))
  | .float a, .float b => .ok (.float (a + b))
  | _, _ => .error (.typeError (str "unsupported operand type(s) for +"))

/-- Python `-` on values. -/
def valSub : Val → Val → Except Err Val
  | .int a, .int b => .ok (.int (a - b))
  | .int a, .float b => .ok (.float ((a : ℚ) - b))
  | .float a, .int b => .ok (.float (a - (b : ℚ)))
  | .float a, .float b => .ok (.float (a - b))
  | _, _ => .error (.typeError (str "unsupported operand type(s) for -"))

/-- Python `*` on values. -/
def valMul : Val → Val → Except Err Val
  | .int a, .int b => .ok (.int (a * b))
  | .int a, .float b => .ok (.float ((a : ℚ) * b))
  | .float a, .int b => .ok (.float (a * (b : ℚ)))
  | .float a, .float b => .ok (.float (a * b))
  | _, _ => .error (.typeError (str "unsupported operand type(s) for *"))

/-- Python `//` on values: floor division, `ZeroDivisionError` on a zero
divisor; `int // int` stays `int`, any float operand gives a float. -/
def valFloorDiv : Val → Val → Except Err Val
  | .int a, .int b =>
    if b = 0 then .error .zeroDivisionError else .ok (.int (Int.fdiv a b))
  | .int a, .float b =>
    if b = 0 then .error .zeroDivisionError
    else .ok (.float ((Rat.floor ((a : ℚ) / b) : Int) : ℚ))
  | .float a, .int b =>
    if b = 0 then .error .zeroDivisionError
    else .ok (.float ((Rat.floor (a / (b : ℚ)) : Int) : ℚ))
  | .float a, .float b =>
    if b = 0 then .error .zeroDivisionError
    else .ok (.float ((Rat.floor (a / b) : Int) : ℚ))
  | _, _ => .error (.typeError (str "unsupported operand type(s) for //"))

/-- Python `/` on values: true division, always producing a float. -/
def valTrueDiv : Val → Val → Except Err Val
  | .int a, .int b =>
    if b = 0 then .error .zeroDivisionError else .ok (.float ((a : ℚ) / (b : ℚ)))
  | .int a, .float b =>
    if b = 0 then .error .zeroDivisionError else .ok (.float ((a : ℚ) / b))
  | .float a, .int b =>
    if b = 0 then .error .zeroDivisionError else .ok (.float (a / (b : ℚ)))
  | .float a, .float b =>
    if b = 0 then .error .zeroDivisionError else .ok (.float (a / b))
  | _, _ => .error (.typeError (str "unsupported operand type(s) for /"))

/-- Python `~` on values (`~n = -n - 1`; only defined on ints). -/
def valNot : Val → Except Err Val
  | .int n => .ok (.int (-n - 1))
  | _ => .error (.typeError (str "bad operand type for unary ~"))

/-- Python `&` on values. -/
def valAnd : Val → Val → Except Err Val
  | .int a, .int b => .ok (.int (pyIntAnd a b))
  | _, _ => .error (.typeError (str "unsupported operand type(s) for &"))

/-- Python `|` on values. -/
def valOr : Val → Val → Except Err Val
  | .int a, .int b => .ok (.int (pyIntOr a b))
  | _, _ => .error (.typeError (str "unsupported operand type(s) for |"))

/-- Python `^` on values. -/
def valXor : Val → Val → Except Err Val
  | .int a, .int b => .ok (.int (pyIntXor a b))
  | _, _ => .error (.typeError (str "unsupported operand type(s) for ^"))

/-- Python `value == 0`: numeric comparison; a closure compared to `0` is
simply unequal (no error). -/
def valEqZero : Val → Bool
  | .int n => n == 0
  | .float q => q == 0
  | _ => false

/-- Python `value < 0`: numeric comparison; ordering a closure against an
int raises `TypeError`. -/
def valLtZero : Val → Except Err Bool
  | .int n => .ok (decide (n < 0))
  | .float q => .ok (decide (q < 0))
  | _ => .error (.typeError (str "not supported between instances"))

/-- Python `value == m` for an integer `m` (used by `push`'s `SP == SS`
check): numeric equality across int/float, `False` for non-numbers. -/
def valEqInt : Val → Int → Bool
  | .int n, m => n == m
  | .float q, m => q == (m : ℚ)
  | _, _ => false

/-- Python `str(value)` as used by `ret` (`self.jmp(str(address))`).  Only
its application to a closure is ever reached in this development; like the
real `"<function VirtualMachine.pop at 0x...>"`, the placeholder below is
not a register name, not bracketed and not numeric. -/
def pyStr : Val → List Char
  | .int n => str (toString n)
  | .float _ => str "<float>"
  | .closure _ => str "<function>"
  | .empty => str "<function>"
  | .none => str "None"

/-- Python list read `l[i]`: the index must be an `int`; a negative index
counts from the end; out of range raises `IndexError`. -/
def pyGet (l : List Val) (i : Val) : Except Err Val :=
  match i with
  | .int n =>
    let j : Int := if n < 0 then n + l.length else n
    if 0 ≤ j ∧ j < (l.length : Int) then .ok (l.getD j.toNat Val.none)
    else .error .indexError
  | _ => .error (.typeError (str "list indices must be integers"))

/-- Python list write `l[i] = v`, with the same index semantics. -/
def pySet (l : List Val) (i : Val) (v : Val) : Except Err (List Val) :=
  match i with
  | .int n =>
    let j : Int := if n < 0 then n + l.length else n
    if 0 ≤ j ∧ j < (l.length : Int) then .ok (l.set j.toNat v)
    else .error .indexError
  | _ => .error (.typeError (str "list indices must be integers"))

/-- The `+`/`-` offset part of the bracket-operand loop body: `int(address
.split('+')[1])`, resp. the negated `'-'` variant, `0` when neither sign
occurs. -/
def parseOffset (address : List Char) : Except Err Int :=
  if address.contains '+' then
    match parseInt ((splitOnChar '+' address).getD 1 []) with
    | some k => .ok k
    | none => .error .valueError
  else if address.contains '-' then
    match parseInt ((splitOnChar '-' address).getD 1 []) with
    | some k => .ok (-k)
    | none => .error .valueError
  else .ok 0

/-- The bracket-interior resolution shared by `read_address` and
`write_address`: the first register name that is a prefix of the contents
selects `getattr(self, register) + offset`; otherwise the whole contents is
parsed as an absolute integer address. -/
def VirtualMachine.effective_address (vm : VirtualMachine) (address : List Char) :
    Except Err Val :=
  match registers.find? (fun r => r.isPrefixOf address) with
  | some r => do
    let k ← parseOffset address
    valAdd (vm.getattr r) (.int k)
  | none =>
    match parseInt address with
    | some n => .ok (.int n)
    | none => .error .valueError

/-- `VirtualMachine.read_address`: a register name reads the register (no
address), a `[...]` operand resolves the bracket interior and reads memory
(or yields the address itself when `address_only`), anything else is an
immediate literal — float if it contains `'.'`, else int. -/
def VirtualMachine.read_address (vm : VirtualMachine) (target : List Char)
    (address_only : Bool) : Except Err Val :=
  if registers.contains target then
    if address_only then .error (.typeError (str "NO ADDRESS"))
    else .ok (vm.getattr target)
  else if target.head? = some '[' ∧ target.getLast? = some ']' then
    match vm.effective_address ((target.drop 1).dropLast) with
    | .error e => .error e
    | .ok addr =>
      if address_only then .ok addr
      else pyGet vm.memory addr
  else
    if address_only then .error (.typeError (str "NO ADDRESS"))
    else if target.contains '.' then
      match parsePyFloat target with
      | some q => .ok (.float q)
      | none => .error .valueError
    else
      match parseInt target with
      | some n => .ok (.int n)
      | none => .error .valueError

/-- `VirtualMachine.write_address`: a register name is assigned directly, a
`[...]` operand stores through the resolved address, anything else raises
`TypeError("Unknown type")`. -/
def VirtualMachine.write_address (vm : VirtualMachine) (target : List Char)
    (value : Val) : Except Err VirtualMachine :=
  if registers.contains target then .ok (vm.setattr target value)
  else if target.head? = some '[' ∧ target.getLast? = some ']' then
    match vm.effective_address ((target.drop 1).dropLast) with
    | .error e => .error e
    | .ok addr =>
      match pySet vm.memory addr value with
      | .error e => .error e
      | .ok m => .ok { vm with memory := m }
  else .error (.typeError (str "Unknown type"))

/-- `VirtualMachine.set_flags`: set `ZERO` when the value equals `0`, set
`NEG` when it is negative — and never clear either.  (Every caller passes a
freshly computed number, so the error branch of the `< 0` comparison is
unreachable; on that unreachable branch Python would keep the `ZERO`
update, which an `Except`-level error cannot express.) -/
def VirtualMachine.set_flags (vm : VirtualMachine) (value : Val) :
    Except Err VirtualMachine :=
  let vm := if valEqZero value then { vm with ZERO := 1 } else vm
  match valLtZero value with
  | .ok b => .ok (if b then { vm with NEG := 1 } else vm)
  | .error e => .error e

/-- The outcome of running one instruction body: Python mutates `self` in
place, so both normal return and exception carry the machine state. -/
inductive PResult where
  | ok (value : Val) (vm : VirtualMachine)
  | err (e : Err) (vm : VirtualMachine)
deriving DecidableEq

/-- Propagate an exception from a pure sub-step, keeping the machine state
current at the raise. -/
def bindE {α : Type} (vm : VirtualMachine) (x : Except Err α) (k : α → PResult) : PResult :=
  match x with
  | .ok a => k a
  | .error e => .err e vm

/-- Python truthiness of the integer-valued flags. -/
def truthy (n : Int) : Bool := !(n == 0)

namespace VirtualMachine

/-- Body of `move`: `dst := read(src)`. -/
def move (vm : VirtualMachine) (destination source : List Char) : PResult :=
  bindE vm (vm.read_address source false) fun s =>
  bindE vm (vm.write_address destination s) fun vm' =>
  .ok .none vm'

/-- Body of `lea`: `dst := address_of(var)`. -/
def lea (vm : VirtualMachine) (destination var : List Char) : PResult :=
  bindE vm (vm.read_address var true) fun a =>
  bindE vm (vm.write_address destination a) fun vm' =>
  .ok .none vm'

/-- Body of `push`: `SP -= 1` **first**, then the `SP == SS` bounds check
(raising `MemoryError` with `SP` already decremented), then resolve the
operand and store it at the new `SP`. -/
def push (vm : VirtualMachine) (target : List Char) : PResult :=
  bindE vm (valSub vm.SP (.int 1)) fun sp =>
  let vm := { vm with SP := sp }
  if valEqInt vm.SP vm.SS then
    .err (.memoryError (str "Insufficient stack space")) vm
  else
    bindE vm (vm.read_address target false) fun v =>
    bindE vm (pySet vm.memory vm.SP v) fun m =>
    .ok .none { vm with memory := m }

/-- Body of `pop`: read `Memory[SP]` (no underflow check of its own — an
out-of-range `SP` raises `IndexError` before `SP` moves), then `SP += 1`,
then optionally write the value out; always returns the value. -/
def pop (vm : VirtualMachine) (writable : Option (List Char)) : PResult :=
  bindE vm (pyGet vm.memory vm.SP) fun value =>
  bindE vm (valAdd vm.SP (.int 1)) fun sp =>
  let vm := { vm with SP := sp }
  match writable with
  | some w =>
    bindE vm (vm.write_address w value) fun vm' => .ok value vm'
  | none => .ok value vm

/-- Body of `input`: read one byte; `ord` of an empty read raises
`TypeError`; the byte's code is written to the operand. -/
def input (vm : VirtualMachine) (writable : List Char) : PResult :=
  match vm.input_stream with
  | [] => .err (.typeError (str "ord() expected a character")) vm
  | b :: rest =>
    let vm := { vm with input_stream := rest }
    bindE vm (vm.write_address writable (.int b)) fun vm' => .ok .none vm'

/-- Python `chr(value)`: an int in `[0, 0x110000)`, else an error. -/
def pyChr (v : Val) : Except Err Nat :=
  match v with
  | .int n => if 0 ≤ n ∧ n < 1114112 then .ok n.toNat else .error .valueError
  | _ => .error (.typeError (str "an integer is required"))

/-- Body of `output`: write `chr(read(src))` to the output stream. -/
def output (vm : VirtualMachine) (readable : List Char) : PResult :=
  bindE vm (vm.read_address readable false) fun value =>
  bindE vm (pyChr value) fun c =>
  .ok .none { vm with output_stream := vm.output_stream ++ [c] }

/-- Body of `add`: read both operands, sum, set flags, store into `x`,
return the sum. -/
def add (vm : VirtualMachine) (x y : List Char) : PResult :=
  bindE vm (vm.read_address x false) fun value1 =>
  bindE vm (vm.read_address y false) fun value2 =>
  bindE vm (valAdd value1 value2) fun total =>
  bindE vm (vm.set_flags total) fun vm' =>
  bindE vm' (vm'.write_address x total) fun vm'' =>
  .ok total vm''

/-- Body of `cmp`: read both operands, subtract, set flags, do not store,
return the difference. -/
def cmp (vm : VirtualMachine) (x y : List Char) : PResult :=
  bindE vm (vm.read_address x false) fun value1 =>
  bindE vm (vm.read_address y false) fun value2 =>
  bindE vm (valSub value1 value2) fun diff =>
  bindE vm (vm.set_flags diff) fun vm' =>
  .ok diff vm'

/-- Body of `sub`.  The source says `diff = self.cmp(x, y)` — but `cmp` is
`@instruction`-decorated, so this call merely builds `lambda: cmp(self, x,
y)` and returns it unexecuted: no operand is read, no flag is set, and the
closure object itself is stored into `x` and returned. -/
def sub (vm : VirtualMachine) (x y : List Char) : PResult :=
  let diff : Val := .closure (.cmp x y)
  bindE vm (vm.write_address x diff) fun vm' =>
  .ok diff vm'

/-- Body of `mul`: product, flags, store. -/
def mul (vm : VirtualMachine) (x y : List Char) : PResult :=
  bindE vm (vm.read_address x false) fun value1 =>
  bindE vm (vm.read_address y false) fun value2 =>
  bindE vm (valMul value1 value2) fun prod =>
  bindE vm (vm.set_flags prod) fun vm' =>
  bindE vm' (vm'.write_address x prod) fun vm'' =>
  .ok .none vm''

/-- Body of `div`: floor quotient, flags, store. -/
def div (vm : VirtualMachine) (x y : List Char) : PResult :=
  bindE vm (vm.read_address x false) fun value1 =>
  bindE vm (vm.read_address y false) fun value2 =>
  bindE vm (valFloorDiv value1 value2) fun quot =>
  bindE vm (vm.set_flags quot) fun vm' =>
  bindE vm' (vm'.write_address x quot) fun vm'' =>
  .ok .none vm''

/-- Body of `fdiv`: true quotient, flags, store. -/
def fdiv (vm : VirtualMachine) (x y : List Char) : PResult :=
  bindE vm (vm.read_address x false) fun value1 =>
  bindE vm (vm.read_address y false) fun value2 =>
  bindE vm (valTrueDiv value1 value2) fun quot =>
  bindE vm (vm.set_flags quot) fun vm' =>
  bindE vm' (vm'.write_address x quot) fun vm'' =>
  .ok .none vm''

/-- Body of `bit_not`: complement, flags, store. -/
def bit_not (vm : VirtualMachine) (x : List Char) : PResult :=
  bindE vm (vm.read_address x false) fun value =>
  bindE vm (valNot value) fun result =>
  bindE vm (vm.set_flags result) fun vm' =>
  bindE vm' (vm'.write_address x result) fun vm'' =>
  .ok .none vm''

/-- Body of `bit_test`: bitwise and, flags, no store, return the result. -/
def bit_test (vm : VirtualMachine) (x y : List Char) : PResult :=
  bindE vm (vm.read_address x false) fun value1 =>
  bindE vm (vm.read_address y false) fun value2 =>
  bindE vm (valAnd value1 value2) fun result =>
  bindE vm (vm.set_flags result) fun vm' =>
  .ok result vm'

/-- Body of `bit_and`.  As in `sub`, `result = self.bit_test(x, y)` calls
the *decorated* `bit_test`, which returns an unexecuted closure: no flags
are set and the closure object is stored into `x`. -/
def bit_and (vm : VirtualMachine) (x y : List Char) : PResult :=
  let result : Val := .closure (.bit_test x y)
  bindE vm (vm.write_address x result) fun vm' =>
  .ok .none vm'

/-- Body of `bit_or`: bitwise or, flags, store. -/
def bit_or (vm : VirtualMachine) (x y : List Char) : PResult :=
  bindE vm (vm.read_address x false) fun value1 =>
  bindE vm (vm.read_address y false) fun value2 =>
  bindE vm (valOr value1 value2) fun result =>
  bindE vm (vm.set_flags result) fun vm' =>
  bindE vm' (vm'.write_address x result) fun vm'' =>
  .ok .none vm''

/-- Body of `bit_xor`: bitwise xor, flags, store. -/
def bit_xor (vm : VirtualMachine) (x y : List Char) : PResult :=
  bindE vm (vm.read_address x false) fun value1 =>
  bindE vm (vm.read_address y false) fun value2 =>
  bindE vm (valXor value1 value2) fun result =>
  bindE vm (vm.set_flags result) fun vm' =>
  bindE vm' (vm'.write_address x result) fun vm'' =>
  .ok .none vm''

/-- Body of `jmp`: `IP := read(addr)`, unconditionally. -/
def jmp (vm : VirtualMachine) (address : List Char) : PResult :=
  bindE vm (vm.read_address address false) fun a =>
  .ok .none { vm with IP := a }

/-- Body of `je` (= `jz`): jump iff `ZERO`. -/
def je (vm : VirtualMachine) (address : List Char) : PResult :=
  bindE vm (vm.read_address address false) fun a =>
  .ok .none (if truthy vm.ZERO then { vm with IP := a } else vm)

/-- Body of `jne` (= `jnz`): jump iff not `ZERO`. -/
def jne (vm : VirtualMachine) (address : List Char) : PResult :=
  bindE vm (vm.read_address address false) fun a =>
  .ok .none (if !truthy vm.ZERO then { vm with IP := a } else vm)

/-- Body of `jb`: jump iff not `ZERO` and `NEG`. -/
def jb (vm : VirtualMachine) (address : List Char) : PResult :=
  bindE vm (vm.read_address address false) fun a =>
  .ok .none (if !truthy vm.ZERO && truthy vm.NEG then { vm with IP := a } else vm)

/-- Body of `jnb`: jump iff `ZERO` or not `NEG`. -/
def jnb (vm : VirtualMachine) (address : List Char) : PResult :=
  bindE vm (vm.read_address address false) fun a =>
  .ok .none (if truthy vm.ZERO || !truthy vm.NEG then { vm with IP := a } else vm)

/-- Body of `jbe`: jump iff `ZERO` or `NEG`. -/
def jbe (vm : VirtualMachine) (address : List Char) : PResult :=
  bindE vm (vm.read_address address false) fun a =>
  .ok .none (if truthy vm.ZERO || truthy vm.NEG then { vm with IP := a } else vm)

/-- Body of `ja`: jump iff not `ZERO` and not `NEG`. -/
def ja (vm : VirtualMachine) (address : List Char) : PResult :=
  bindE vm (vm.read_address address false) fun a =>
  .ok .none (if !truthy vm.ZERO && !truthy vm.NEG then { vm with IP := a } else vm)

/-- Body of `jna`: jump iff `ZERO` or `NEG` (the source line reads
`if self.ZERO or self.NEG`). -/
def jna (vm : VirtualMachine) (address : List Char) : PResult :=
  bindE vm (vm.read_address address false) fun a =>
  .ok .none (if truthy vm.ZERO || truthy vm.NEG then { vm with IP := a } else vm)

/-- Body of `jae`: jump iff `ZERO` or **not** `NEG` (the source line reads
`if self.ZERO or not self.NEG` — not the same condition as `jna`). -/
def jae (vm : VirtualMachine) (address : List Char) : PResult :=
  bindE vm (vm.read_address address false) fun a =>
  .ok .none (if truthy vm.ZERO || !truthy vm.NEG then { vm with IP := a } else vm)

/-- Body of `ret`.  `address = self.pop(None)` calls the *decorated* `pop`,
binding an unexecuted closure (the stack is untouched); `self.jmp(str(
address))` likewise builds a closure that is immediately discarded (`IP` is
untouched).  Net effect: no state change. -/
def ret (vm : VirtualMachine) : PResult :=
  let address : Val := .closure (.pop Option.none)
  let _unused : Val := .closure (.jmp (pyStr address))
  .ok .none vm

/-- Dispatch of a pending instruction call to its body — what running the
stored `lambda: func(self, *args)` does. -/
def execInstr (vm : VirtualMachine) : Instr → PResult
  | .move d s => vm.move d s
  | .lea d v => vm.lea d v
  | .push t => vm.push t
  | .pop w => vm.pop w
  | .input w => vm.input w
  | .output r => vm.output r
  | .add x y => vm.add x y
  | .cmp x y => vm.cmp x y
  | .sub x y => vm.sub x y
  | .mul x y => vm.mul x y
  | .div x y => vm.div x y
  | .fdiv x y => vm.fdiv x y
  | .bit_not x => vm.bit_not x
  | .bit_test x y => vm.bit_test x y
  | .bit_and x y => vm.bit_and x y
  | .bit_or x y => vm.bit_or x y
  | .bit_xor x y => vm.bit_xor x y
  | .jmp a => vm.jmp a
  | .je a => vm.je a
  | .jne a => vm.jne a
  | .jb a => vm.jb a
  | .jnb a => vm.jnb a
  | .jbe a => vm.jbe a
  | .ja a => vm.ja a
  | .jna a => vm.jna a
  | .jae a => vm.jae a
  | .ret => vm.ret

/-- Python `inst()` on a memory cell: a stored instruction runs its body,
the construction-time sentinel raises `TypeError('Empty')`, and plain data
is not callable. -/
def call (vm : VirtualMachine) : Val → PResult
  | .closure i => vm.execInstr i
  | .empty => .err (.typeError (str "Empty")) vm
  | _ => .err (.typeError (str "object is not callable")) vm

/-- `VirtualMachine.next`: fetch `Memory[IP]`, advance `IP` by one, then
call the fetched cell and return its result. -/
def next (vm : VirtualMachine) : PResult :=
  bindE vm (pyGet vm.memory vm.IP) fun inst =>
  bindE vm (valAdd vm.IP (.int 1)) fun ip =>
  VirtualMachine.call { vm with IP := ip } inst

/-- `VirtualMachine.add_instruction`: store a cell at `IP` and advance
`IP`. -/
def add_instruction (vm : VirtualMachine) (inst : Val) : PResult :=
  bindE vm (pySet vm.memory vm.IP inst) fun m =>
  let vm := { vm with memory := m }
  bindE vm (valAdd vm.IP (.int 1)) fun ip =>
  .ok .none { vm with IP := ip }

end VirtualMachine

/-! ## Helper lemmas about the embedding's plumbing -/

theorem bindE_ok {α : Type} (vm : VirtualMachine) (a : α) (k : α → PResult) :
    bindE vm (Except.ok a) k = k a := rfl

theorem bindE_error {α : Type} (vm : VirtualMachine) (e : Err) (k : α → PResult) :
    bindE vm (Except.error e) k = .err e vm := rfl

theorem pyGet_nonneg (l : List Val) (n : Int) (h0 : 0 ≤ n) (hl : n < (l.length : Int)) :
    pyGet l (.int n) = .ok (l.getD n.toNat Val.none) := by
  have hcond : (if n < 0 then n + (l.length : Int) else n) = n := if_neg (by omega)
  simp only [pyGet, hcond]
  exact if_pos ⟨h0, hl⟩

theorem pySet_nonneg (l : List Val) (n : Int) (v : Val) (h0 : 0 ≤ n)
    (hl : n < (l.length : Int)) :
    pySet l (.int n) v = .ok (l.set n.toNat v) := by
  have hcond : (if n < 0 then n + (l.length : Int) else n) = n := if_neg (by omega)
  simp only [pySet, hcond]
  exact if_pos ⟨h0, hl⟩

theorem pyGet_out_of_range (l : List Val) (n : Int)
    (hn : (l.length : Int) ≤ n ∨ n < -(l.length : Int)) :
    pyGet l (.int n) = .error .indexError := by
  simp only [pyGet]
  rw [if_neg]
  split <;> omega

theorem pySet_out_of_range (l : List Val) (n : Int) (v : Val)
    (hn : (l.length : Int) ≤ n ∨ n < -(l.length : Int)) :
    pySet l (.int n) v = .error .indexError := by
  simp only [pySet]
  rw [if_neg]
  split <;> omega

/-! ## Concrete machines used by the claim theorems -/

/-- A small concrete machine: two cells per segment, so
`memory = [Empty, Empty, 0, 0, 0, 0]`, `CS = 0`, `DS = 2`, `SS = 4`,
`SP = 6`, `BP = 5`, `IP = 0`, flags clear. -/
def vm0 : VirtualMachine := VirtualMachine.new 2 []

/-! ## C1 -/

/-- A small machine with one value pushed: `SP = 4` and `Memory[4] = 1`, a
return address sitting on top of the stack. -/
def vmC1 : VirtualMachine := { vm0 with SP := .int 4, memory := vm0.memory.set 4 (.int 1) }

/-- C1: the spec says `ret` pops the return address (reading `Memory[SP]`
and incrementing `SP`) and jumps to it.  The code's `ret` does neither: its
inner calls `self.pop(None)` and `self.jmp(str(address))` go to the
`@instruction`-decorated methods, which only *construct* thunks, so
executing `ret` on a machine with a return address on top of the stack
returns `None` and leaves the whole state — `SP`, `IP`, memory —
unchanged. -/
theorem ret_is_a_no_op :
    vmC1.execInstr Instr.ret = PResult.ok Val.none vmC1 := by rfl

/-! ## C2 -/

/-- A machine with `AX = 2`, `BX = 2`, flags clear. -/
def vmC2 : VirtualMachine := { vm0 with AX := .int 2, BX := .int 2 }

/-- C2: the claim says `sub x,y` stores `read(x) - read(y)` into `x` and
sets the flags of the difference (here `2 - 2 = 0`, so `ZERO` should
become 1).  The code's `sub` instead binds `diff = self.cmp(x, y)` where
`cmp` is decorated, so `diff` is an unexecuted closure: executing
`sub AX, BX` stores that closure object into `AX`, returns it, and leaves
`ZERO` (and `NEG`) untouched at 0. -/
theorem sub_stores_unexecuted_cmp_closure :
    vmC2.execInstr (Instr.sub (str "AX") (str "BX")) =
      PResult.ok (Val.closure (Instr.cmp (str "AX") (str "BX")))
        { vmC2 with AX := Val.closure (Instr.cmp (str "AX") (str "BX")) } ∧
    vmC2.ZERO = 0 ∧ vmC2.NEG = 0 := ⟨rfl, rfl, rfl⟩

/-! ## C3 -/

/-- A machine with `AX = 1`, `BX = 2`, flags clear (`1 & 2 = 0`, so the
claimed behaviour would store 0 and set `ZERO`). -/
def vmC3 : VirtualMachine := { vm0 with AX := .int 1, BX := .int 2 }

/-- C3: the claim says `bit_and x,y` stores `read(x) & read(y)` into `x`
and sets flags from that result.  The code's `bit_and` binds
`result = self.bit_test(x, y)` where `bit_test` is decorated, so `result`
is an unexecuted closure: executing `bit_and AX, BX` stores that closure
into `AX` and sets no flag. -/
theorem bit_and_stores_unexecuted_bit_test_closure :
    vmC3.execInstr (Instr.bit_and (str "AX") (str "BX")) =
      PResult.ok Val.none
        { vmC3 with AX := Val.closure (Instr.bit_test (str "AX") (str "BX")) } ∧
    vmC3.ZERO = 0 := ⟨rfl, rfl⟩

/-! ## C7 -/

/-- A machine with `AX = 3`, `BX = 3`, flags clear. -/
def vmC7 : VirtualMachine := { vm0 with AX := .int 3, BX := .int 3 }

/-- C7: the claim lists `sub` (and `bit_and`) among the instructions that
set `ZERO` to 1 when their result is zero.  Executing `sub AX, BX` with
`AX = BX = 3` — result 0 by the claim — leaves `ZERO = 0`, because the
code's `sub` never runs `cmp` (the decorated inner call returns a thunk)
and hence never reaches `set_flags`. -/
theorem sub_with_zero_result_does_not_set_ZERO :
    vmC7.execInstr (Instr.sub (str "AX") (str "BX")) =
      PResult.ok (Val.closure (Instr.cmp (str "AX") (str "BX")))
        { vmC7 with AX := Val.closure (Instr.cmp (str "AX") (str "BX")) } ∧
    vmC7.ZERO = 0 := ⟨rfl, rfl⟩

/-! ## C4 -/

/-- C4 counterexample: with `ZERO = 0` and `NEG = 0` the claim says `jae`
must not jump (its claimed condition `ZERO or NEG` is false), but the
code's `jae` — whose real condition is `ZERO or not NEG` — does jump. -/
theorem jae_jumps_when_neither_zero_nor_neg :
    vm0.ZERO = 0 ∧ vm0.NEG = 0 ∧
    vm0.execInstr (Instr.jae (str "3")) =
      PResult.ok Val.none { vm0 with IP := Val.int 3 } := ⟨rfl, rfl, rfl⟩

/-- C4 (amended): `jna addr` sets `IP` to `read(addr)` iff `ZERO` or `NEG`
holds, while `jae addr` sets `IP` to `read(addr)` iff `ZERO` or **not**
`NEG` holds — the two conditions are not identical (they already differ at
`ZERO = NEG = 0`). -/
theorem jna_jae_jump_conditions (vm : VirtualMachine) (address : List Char) (t : Val)
    (h : vm.read_address address false = Except.ok t) :
    vm.jna address =
      PResult.ok Val.none (if vm.ZERO ≠ 0 ∨ vm.NEG ≠ 0 then { vm with IP := t } else vm) ∧
    vm.jae address =
      PResult.ok Val.none (if vm.ZERO ≠ 0 ∨ ¬vm.NEG ≠ 0 then { vm with IP := t } else vm) := by
  by_cases hz : vm.ZERO = 0 <;> by_cases hn : vm.NEG = 0 <;>
    simp [VirtualMachine.jna, VirtualMachine.jae, bindE, h, truthy, hz, hn]

/-- A machine with `ZERO = 0`, `NEG = 1`: `jna` jumps, `jae` does not. -/
def vmC4w : VirtualMachine := { vm0 with NEG := 1 }

theorem jna_jae_jump_conditions_witness :
    vmC4w.jna (str "3") = PResult.ok Val.none { vmC4w with IP := Val.int 3 } ∧
    vmC4w.jae (str "3") = PResult.ok Val.none vmC4w := by
  obtain ⟨ha, hb⟩ := jna_jae_jump_conditions vmC4w (str "3") (Val.int 3) rfl
  refine ⟨?_, ?_⟩
  · rw [ha, if_pos (by decide)]
  · rw [hb, if_neg (by decide)]

/-! ## C5 -/

/-- A machine whose stack is at its allocated capacity: `SP = 5 = SS + 1`,
i.e. `SP - 1 = SS`. -/
def vmC5 : VirtualMachine := { vm0 with SP := Val.int 5 }

/-- C5 counterexample: pushing onto the machine at capacity raises the
out-of-stack-space error, but the state is **not** entirely unchanged —
`SP` has already been decremented from 5 to 4 when the error is raised,
contradicting the claimed atomicity. -/
theorem push_at_capacity_changes_SP :
    vmC5.push (str "1") =
      PResult.err (Err.memoryError (str "Insufficient stack space"))
        { vmC5 with SP := Val.int 4 } ∧
    Val.int 4 ≠ vmC5.SP := ⟨rfl, by decide⟩

/-- C5 (amended): when the stack is at its allocated capacity
(`SP = SS + 1`), `push` raises the out-of-stack-space `MemoryError` before
resolving its operand or touching memory — but only after the `SP -= 1`
line has run, so the failed push leaves `SP` equal to `SS` (every other
component of the state is unchanged). -/
theorem push_at_capacity_raises_after_decrement (vm : VirtualMachine) (target : List Char)
    (h : vm.SP = Val.int (vm.SS + 1)) :
    vm.push target =
      PResult.err (Err.memoryError (str "Insufficient stack space"))
        { vm with SP := Val.int vm.SS } := by
  unfold VirtualMachine.push
  rw [h]
  simp [valSub, bindE, valEqInt]

theorem push_at_capacity_raises_after_decrement_witness :
    vmC5.SP = Val.int (vmC5.SS + 1) ∧
    vmC5.push (str "1") =
      PResult.err (Err.memoryError (str "Insufficient stack space"))
        { vmC5 with SP := Val.int vmC5.SS } :=
  ⟨by decide, push_at_capacity_raises_after_decrement vmC5 (str "1") (by decide)⟩

/-! ## C6 -/

/-- C6 counterexample: the operand `[-1]` has effective address `-1` —
outside the allocated range `[0, 3*memory_size)` — yet resolving it does
not raise: the read aliases the last memory cell (Python negative
indexing) and yields its value `0`, and a write through it succeeds and
mutates that cell. -/
theorem negative_address_aliases_from_end :
    vm0.read_address (str "[-1]") true = Except.ok (Val.int (-1)) ∧
    vm0.read_address (str "[-1]") false = Except.ok (Val.int 0) ∧
    vm0.write_address (str "[-1]") (Val.int 9) =
      Except.ok { vm0 with memory := vm0.memory.set 5 (Val.int 9) } := ⟨rfl, rfl, rfl⟩

/-- C6 (amended): an indirect operand whose effective address `n` satisfies
`n ≥ len(Memory)` or `n < -len(Memory)` raises `IndexError` on both read
and write, and memory never grows; but a negative effective address in
`[-len(Memory), -1]` does **not** raise — Python list indexing aliases it
from the end of Memory. -/
theorem out_of_range_address_raises_index_error (vm : VirtualMachine)
    (target : List Char) (n : Int) (v : Val)
    (h : vm.read_address target true = Except.ok (Val.int n))
    (hn : (vm.memory.length : Int) ≤ n ∨ n < -(vm.memory.length : Int)) :
    vm.read_address target false = Except.error Err.indexError ∧
    vm.write_address target v = Except.error Err.indexError := by
  by_cases hreg : registers.contains target = true
  · unfold VirtualMachine.read_address at h
    rw [if_pos hreg, if_pos rfl] at h
    exact absurd h (by simp)
  · by_cases hbr : target.head? = some '[' ∧ target.getLast? = some ']'
    · unfold VirtualMachine.read_address at h
      rw [if_neg hreg, if_pos hbr] at h
      cases hea : vm.effective_address ((target.drop 1).dropLast) with
      | error e => rw [hea] at h; exact absurd h (by simp)
      | ok addr =>
        rw [hea] at h
        have haddr : addr = Val.int n := by simpa using h
        subst haddr
        constructor
        · unfold VirtualMachine.read_address
          rw [if_neg hreg, if_pos hbr, hea]
          simpa using pyGet_out_of_range vm.memory n hn
        · unfold VirtualMachine.write_address
          rw [if_neg hreg, if_pos hbr, hea]
          simp [pySet_out_of_range vm.memory n v hn]
    · unfold VirtualMachine.read_address at h
      rw [if_neg hreg, if_neg hbr, if_pos rfl] at h
      exact absurd h (by simp)

theorem out_of_range_address_raises_index_error_witness :
    vm0.read_address (str "[7]") false = Except.error Err.indexError ∧
    vm0.write_address (str "[7]") (Val.int 9) = Except.error Err.indexError :=
  out_of_range_address_raises_index_error vm0 (str "[7]") 7 (Val.int 9) rfl (by decide)

/-! ## C8 -/

/-- C8: stack discipline is LIFO.  For any machine whose stack has room for
two more cells (`SS < SP - 2 ≤ len(Memory) - 2`) and any two operands that
read as `w1` and `w2` in every state (e.g. immediate literals):
`push s1; push s2; pop; pop` returns `w2` from the first pop and `w1` from
the second, and the final `SP` equals the original `vm.SP`. -/
theorem push_push_pop_pop_is_lifo (vm : VirtualMachine) (s1 s2 : List Char)
    (w1 w2 : Val) (sp : Int)
    (hSP : vm.SP = Val.int sp)
    (hss : vm.SS < sp - 2)
    (hss0 : 0 ≤ vm.SS)
    (hlen : sp ≤ (vm.memory.length : Int))
    (h1 : ∀ u : VirtualMachine, u.read_address s1 false = Except.ok w1)
    (h2 : ∀ u : VirtualMachine, u.read_address s2 false = Except.ok w2) :
    vm.push s1 = PResult.ok Val.none
      { vm with SP := Val.int (sp - 1),
                memory := vm.memory.set (sp - 1).toNat w1 } ∧
    VirtualMachine.push
        { vm with SP := Val.int (sp - 1), memory := vm.memory.set (sp - 1).toNat w1 } s2 =
      PResult.ok Val.none
        { vm with SP := Val.int (sp - 2),
                  memory := (vm.memory.set (sp - 1).toNat w1).set (sp - 2).toNat w2 } ∧
    VirtualMachine.pop
        { vm with SP := Val.int (sp - 2),
                  memory := (vm.memory.set (sp - 1).toNat w1).set (sp - 2).toNat w2 }
        Option.none =
      PResult.ok w2
        { vm with SP := Val.int (sp - 1),
                  memory := (vm.memory.set (sp - 1).toNat w1).set (sp - 2).toNat w2 } ∧
    VirtualMachine.pop
        { vm with SP := Val.int (sp - 1),
                  memory := (vm.memory.set (sp - 1).toNat w1).set (sp - 2).toNat w2 }
        Option.none =
      PResult.ok w1
        { vm with SP := Val.int sp,
                  memory := (vm.memory.set (sp - 1).toNat w1).set (sp - 2).toNat w2 } ∧
    Val.int sp = vm.SP := by
  have hlen1 : ((vm.memory.set (sp - 1).toNat w1).length : Int) = (vm.memory.length : Int) := by
    simp
  have hlen2 :
      (((vm.memory.set (sp - 1).toNat w1).set (sp - 2).toNat w2).length : Int) =
        (vm.memory.length : Int) := by simp
  have hset1 : pySet vm.memory (Val.int (sp - 1)) w1 =
      Except.ok (vm.memory.set (sp - 1).toNat w1) :=
    pySet_nonneg _ _ _ (by omega) (by omega)
  have hset2 : pySet (vm.memory.set (sp - 1).toNat w1) (Val.int (sp - 2)) w2 =
      Except.ok ((vm.memory.set (sp - 1).toNat w1).set (sp - 2).toNat w2) :=
    pySet_nonneg _ _ _ (by omega) (by omega)
  have hget2 : pyGet ((vm.memory.set (sp - 1).toNat w1).set (sp - 2).toNat w2)
      (Val.int (sp - 2)) = Except.ok w2 := by
    rw [pyGet_nonneg _ _ (by omega) (by omega)]
    rw [List.getD_eq_getElem?_getD, List.getElem?_set_self (by omega)]
    rfl
  have hget1 : pyGet ((vm.memory.set (sp - 1).toNat w1).set (sp - 2).toNat w2)
      (Val.int (sp - 1)) = Except.ok w1 := by
    rw [pyGet_nonneg _ _ (by omega) (by omega)]
    rw [List.getD_eq_getElem?_getD, List.getElem?_set_ne (by omega),
      List.getElem?_set_self (by omega)]
    rfl
  refine ⟨?_, ?_, ?_, ?_, hSP.symm⟩
  · -- first push
    simp only [VirtualMachine.push, hSP,
      show valSub (Val.int sp) (Val.int 1) = Except.ok (Val.int (sp - 1)) from rfl, bindE_ok]
    rw [if_neg (by simp only [valEqInt, beq_iff_eq]; omega)]
    simp only [h1, bindE_ok, hset1]
  · -- second push
    simp only [VirtualMachine.push,
      show valSub (Val.int (sp - 1)) (Val.int 1) = Except.ok (Val.int (sp - 1 - 1)) from rfl,
      show (sp - 1 - 1 : Int) = sp - 2 from by omega, bindE_ok]
    rw [if_neg (by simp only [valEqInt, beq_iff_eq]; omega)]
    simp only [h2, bindE_ok, hset2]
  · -- first pop
    simp only [VirtualMachine.pop, hget2, bindE_ok,
      show valAdd (Val.int (sp - 2)) (Val.int 1) = Except.ok (Val.int (sp - 2 + 1)) from rfl,
      show (sp - 2 + 1 : Int) = sp - 1 from by omega]
  · -- second pop
    simp only [VirtualMachine.pop, hget1, bindE_ok,
      show valAdd (Val.int (sp - 1)) (Val.int 1) = Except.ok (Val.int (sp - 1 + 1)) from rfl,
      show (sp - 1 + 1 : Int) = sp from by omega]


/-- The LIFO witness machine: three cells per segment (`SS = 6`,
`SP = 9 = len(Memory)`), so two pushes fit. -/
def vmC8 : VirtualMachine := VirtualMachine.new 3 []

theorem push_push_pop_pop_is_lifo_witness :
    vmC8.push (str "1") = PResult.ok Val.none
      { vmC8 with
        SP := Val.int (9 - 1),
        memory := vmC8.memory.set (9 - 1 : Int).toNat (Val.int 1) } ∧
    VirtualMachine.push
      { vmC8 with
        SP := Val.int (9 - 1),
        memory := vmC8.memory.set (9 - 1 : Int).toNat (Val.int 1) } (str "2") =
      PResult.ok Val.none
      { vmC8 with
        SP := Val.int (9 - 2),
        memory := (vmC8.memory.set (9 - 1 : Int).toNat (Val.int 1)).set
          (9 - 2 : Int).toNat (Val.int 2) } ∧
    VirtualMachine.pop
      { vmC8 with
        SP := Val.int (9 - 2),
        memory := (vmC8.memory.set (9 - 1 : Int).toNat (Val.int 1)).set
          (9 - 2 : Int).toNat (Val.int 2) } Option.none =
      PResult.ok (Val.int 2)
      { vmC8 with
        SP := Val.int (9 - 1),
        memory := (vmC8.memory.set (9 - 1 : Int).toNat (Val.int 1)).set
          (9 - 2 : Int).toNat (Val.int 2) } ∧
    VirtualMachine.pop
      { vmC8 with
        SP := Val.int (9 - 1),
        memory := (vmC8.memory.set (9 - 1 : Int).toNat (Val.int 1)).set
          (9 - 2 : Int).toNat (Val.int 2) } Option.none =
      PResult.ok (Val.int 1)
      { vmC8 with
        SP := Val.int 9,
        memory := (vmC8.memory.set (9 - 1 : Int).toNat (Val.int 1)).set
          (9 - 2 : Int).toNat (Val.int 2) } ∧
    Val.int 9 = vmC8.SP :=
  push_push_pop_pop_is_lifo vmC8 (str "1") (str "2")
    (Val.int 1) (Val.int 2) 9 rfl (by decide) (by decide) (by decide)
    (fun _ => rfl) (fun _ => rfl)

/-! ## C9 -/

/-- C9: `next` fetches `Memory[IP]`, increments `IP` by one *before*
executing, then calls the fetched cell — so stepping a machine whose `IP`
is `a` runs the fetched instruction from a state whose `IP` is already
`a + 1`; in particular, when the fetched cell is a `jmp` whose operand
reads as `t`, the machine after the step has `IP = t` (not `a + 1`). -/
theorem next_fetch_increment_execute (vm : VirtualMachine) (a : Int) (inst : Val)
    (hIP : vm.IP = Val.int a)
    (hfetch : pyGet vm.memory vm.IP = Except.ok inst) :
    vm.next = VirtualMachine.call { vm with IP := Val.int (a + 1) } inst ∧
    (∀ s t, inst = Val.closure (Instr.jmp s) →
      VirtualMachine.read_address { vm with IP := Val.int (a + 1) } s false = Except.ok t →
      vm.next = PResult.ok Val.none { vm with IP := t }) := by
  have h1 : vm.next = VirtualMachine.call { vm with IP := Val.int (a + 1) } inst := by
    simp only [VirtualMachine.next, hfetch, bindE_ok]
    simp only [hIP,
      show valAdd (Val.int a) (Val.int 1) = Except.ok (Val.int (a + 1)) from rfl, bindE_ok]
  refine ⟨h1, ?_⟩
  intro s t hinst hread
  rw [h1, hinst]
  simp only [VirtualMachine.call, VirtualMachine.execInstr, VirtualMachine.jmp, hread, bindE_ok]

/-- A machine whose code cell 0 holds `jmp 3` and whose `IP` is 0. -/
def vmC9 : VirtualMachine :=
  { vm0 with memory := vm0.memory.set 0 (Val.closure (Instr.jmp (str "3"))) }

theorem next_fetch_increment_execute_witness :
    vmC9.next = VirtualMachine.call { vmC9 with IP := Val.int (0 + 1) }
      (Val.closure (Instr.jmp (str "3"))) ∧
    vmC9.next = PResult.ok Val.none { vmC9 with IP := Val.int 3 } := by
  obtain ⟨ha, hb⟩ :=
    next_fetch_increment_execute vmC9 0 (Val.closure (Instr.jmp (str "3"))) rfl rfl
  exact ⟨ha, hb (str "3") (Val.int 3) rfl rfl⟩

/-! ## C10 -/

/-- C10: on a freshly constructed machine `SP` equals the total memory
length (one past the last stack cell), so `pop` — which performs no
stack-underflow check of its own — reads `Memory[SP]` out of range and
raises `IndexError` (not a dedicated stack-underflow error) before the
`SP += 1` line runs: the machine state, `SP` included, is unchanged. -/
theorem pop_on_fresh_vm_raises_index_error (memory_size : Nat) (ins : List Nat) :
    (VirtualMachine.new memory_size ins).pop Option.none =
      PResult.err Err.indexError (VirtualMachine.new memory_size ins) := by
  have hsp : (VirtualMachine.new memory_size ins).SP =
      Val.int ((VirtualMachine.new memory_size ins).memory.length : Int) := by
    simp [VirtualMachine.new]
  have hget : pyGet (VirtualMachine.new memory_size ins).memory
      (VirtualMachine.new memory_size ins).SP = Except.error Err.indexError := by
    rw [hsp]
    exact pyGet_out_of_range _ _ (Or.inl le_rfl)
  simp only [VirtualMachine.pop, hget, bindE_error]
